import Mathlib

/-!
Shallow embedding of the sales-analytics dashboard script (dashboard.py).

The script is a linear pandas pipeline: load a CSV into a table, clean it,
filter by a date interval and an optional country, then compute scalar
metrics and seven chart aggregations.  We model the table as a
`List SalesRecord`, timestamps as explicit calendar structures, and money
as exact rationals.  Group-by aggregations follow the pandas semantics:
group keys are the distinct key values, listed in sorted order
(pandas `groupby` sorts keys by default), and each key is paired with the
aggregate over the rows having that key.
-/

set_option allowUnsafeReducibility true

attribute [local semireducible] Rat.mul Rat.div Rat.add Rat.sub Rat.neg Rat.inv

/-- A timestamp as parsed by `pd.to_datetime`: calendar date plus time of
day (the script only ever uses the date part, the calendar month and the
hour). -/
structure Timestamp where
  year : Nat
  month : Nat
  day : Nat
  hour : Nat
  minute : Nat
deriving DecidableEq, Repr

/-- A calendar date, the result of `.dt.date` (time of day dropped). -/
structure Date where
  year : Nat
  month : Nat
  day : Nat
deriving DecidableEq, Repr

/-- A calendar month, the result of `.dt.to_period("M")`. -/
structure Month where
  year : Nat
  month : Nat
deriving DecidableEq, Repr

def Timestamp.toDate (t : Timestamp) : Date := ⟨t.year, t.month, t.day⟩

def Timestamp.toMonth (t : Timestamp) : Month := ⟨t.year, t.month⟩

/-- Chronological order on dates (lexicographic on year, month, day),
matching comparison of python `date` values. -/
def Date.le (a b : Date) : Prop :=
  a.year < b.year ∨
    (a.year = b.year ∧ (a.month < b.month ∨ (a.month = b.month ∧ a.day ≤ b.day)))

/-- Strict chronological order on dates. -/
def Date.lt (a b : Date) : Prop :=
  a.year < b.year ∨
    (a.year = b.year ∧ (a.month < b.month ∨ (a.month = b.month ∧ a.day < b.day)))

instance : DecidableRel Date.le := fun a b => by unfold Date.le; infer_instance

instance : DecidableRel Date.lt := fun a b => by unfold Date.lt; infer_instance

/-- Chronological order on months (lexicographic on year, month), matching
comparison of pandas monthly periods. -/
def Month.le (a b : Month) : Prop :=
  a.year < b.year ∨ (a.year = b.year ∧ a.month ≤ b.month)

/-- Strict chronological order on months. -/
def Month.lt (a b : Month) : Prop :=
  a.year < b.year ∨ (a.year = b.year ∧ a.month < b.month)

instance : DecidableRel Month.le := fun a b => by unfold Month.le; infer_instance

instance : DecidableRel Month.lt := fun a b => by unfold Month.lt; infer_instance

instance : IsTotal Month Month.le :=
  ⟨by intro a b; unfold Month.le; omega⟩

instance : IsTrans Month Month.le :=
  ⟨by intro a b c hab hbc; unfold Month.le at *; omega⟩

/-- A raw CSV row, before cleaning.  `customerId` is nullable in the raw
input; every other field is taken as already well formed (the script
would abort on a malformed file, which we do not model). -/
structure RawRecord where
  invoiceNo : String
  description : String
  quantity : Int
  invoiceDate : Timestamp
  unitPrice : ℚ
  customerId : Option String
  country : String
deriving DecidableEq, Repr

/-- A cleaned row of the loaded table: a raw row plus the derived
`totalPrice` column.  `customerId` stays optional in the type; the loader
guarantees it is present (claim C1). -/
structure SalesRecord where
  invoiceNo : String
  description : String
  quantity : Int
  invoiceDate : Timestamp
  unitPrice : ℚ
  customerId : Option String
  country : String
  totalPrice : ℚ
deriving DecidableEq, Repr

/-- `df.drop_duplicates()`: keep the first occurrence of every row value,
drop later exact duplicates.  `seen` accumulates the row values already
kept. -/
def drop_duplicates {γ : Type} [DecidableEq γ] (seen : List γ) : List γ → List γ
  | [] => []
  | r :: rs =>
      if r ∈ seen then drop_duplicates seen rs
      else r :: drop_duplicates (r :: seen) rs

/-- `load_data` (dashboard.py lines 48 to 56), minus the file read: drop
rows with a missing CustomerID, keep rows with positive Quantity, derive
TotalPrice = Quantity * UnitPrice, drop exact duplicate rows. -/
def load_data (raw : List RawRecord) : List SalesRecord :=
  let d1 := raw.filter (fun r => r.customerId.isSome)
  let d2 := d1.filter (fun r => decide (0 < r.quantity))
  let d3 := d2.map (fun r =>
    ({ invoiceNo := r.invoiceNo
       description := r.description
       quantity := r.quantity
       invoiceDate := r.invoiceDate
       unitPrice := r.unitPrice
       customerId := r.customerId
       country := r.country
       totalPrice := (r.quantity : ℚ) * r.unitPrice } : SalesRecord))
  drop_duplicates [] d3

/-- The date of a row, `df["InvoiceDate"].dt.date`. -/
def dateOf (r : SalesRecord) : Date := r.invoiceDate.toDate

/-- The month of a row, `df["InvoiceDate"].dt.to_period("M")`. -/
def monthOf (r : SalesRecord) : Month := r.invoiceDate.toMonth

/-- The boolean mask of dashboard.py lines 89 to 91: the date lies in the
inclusive interval, and, when the selected country is not "All", the
country equals the selection. -/
def keepRow (startD endD : Date) (sel : String) (r : SalesRecord) : Bool :=
  let mask := decide (Date.le startD (dateOf r)) && decide (Date.le (dateOf r) endD)
  if sel ≠ "All" then mask && decide (r.country = sel) else mask

/-- `filtered_df = df[mask].copy()` (dashboard.py line 92): the rows of
`df`, in order, that satisfy the mask. -/
def filtered_df (df : List SalesRecord) (startD endD : Date) (sel : String) :
    List SalesRecord :=
  df.filter (keepRow startD endD sel)

/-- Modelled from the spec's words (section 4.2), for comparison with
`filtered_df`: keep a row when its truncated date falls within
[start, end] and, unless the selection is "All", its country equals the
selection. -/
def specFilterKeep (startD endD : Date) (sel : String) (r : SalesRecord) : Prop :=
  Date.le startD (dateOf r) ∧ Date.le (dateOf r) endD ∧
    (sel = "All" ∨ r.country = sel)

instance (startD endD : Date) (sel : String) (r : SalesRecord) :
    Decidable (specFilterKeep startD endD sel r) := by
  unfold specFilterKeep; infer_instance

/-- `total_sales = filtered_df["TotalPrice"].sum()`. -/
def total_sales (df : List SalesRecord) : ℚ :=
  (df.map (fun r => r.totalPrice)).sum

/-- `total_orders = filtered_df["InvoiceNo"].nunique()`. -/
def total_orders (df : List SalesRecord) : Nat :=
  ((df.map (fun r => r.invoiceNo)).dedup).length

/-- `total_customers = filtered_df["CustomerID"].nunique()`. -/
def total_customers (df : List SalesRecord) : Nat :=
  ((df.map (fun r => r.customerId)).dedup).length

/-- `avg_order_value = total_sales / total_orders if total_orders > 0
else 0` (dashboard.py line 102). -/
def avg_order_value (df : List SalesRecord) : ℚ :=
  if 0 < total_orders df then total_sales df / (total_orders df : ℚ) else 0

/-- Lexicographic order on code-point sequences, the order python uses
to compare strings. -/
def charListLe : List Char → List Char → Prop
  | [], _ => True
  | _ :: _, [] => False
  | a :: as, b :: bs =>
      a.val.toNat < b.val.toNat ∨ (a.val.toNat = b.val.toNat ∧ charListLe as bs)

instance charListLe.decidable : ∀ (l1 l2 : List Char), Decidable (charListLe l1 l2)
  | [], _ => isTrue trivial
  | _ :: _, [] => isFalse (fun h => h)
  | a :: as, b :: bs => by
      unfold charListLe
      have := charListLe.decidable as bs
      infer_instance

/-- Code-point lexicographic order on strings, the order pandas sorts
string group keys in. -/
def strLe (a b : String) : Prop := charListLe a.data b.data

instance : DecidableRel strLe := fun a b => by unfold strLe; infer_instance

/-- A pandas `groupby(key)[col].sum()`: the distinct key values, in
ascending order with respect to `r` (pandas sorts group keys by default),
each paired with the sum of `val` over the rows having that key. -/
def groupbySum {α κ β : Type} [DecidableEq κ] [AddCommMonoid β]
    (r : κ → κ → Prop) [DecidableRel r]
    (key : α → κ) (val : α → β) (df : List α) : List (κ × β) :=
  (List.insertionSort r ((df.map key).dedup)).map
    (fun k => (k, ((df.filter (fun a => decide (key a = k))).map val).sum))

/-- A pandas `groupby(key)[col].nunique()`: the distinct key values, in
ascending order with respect to `r`, each paired with the number of
distinct `val` values among the rows having that key. -/
def groupbyNunique {α κ γ : Type} [DecidableEq κ] [DecidableEq γ]
    (r : κ → κ → Prop) [DecidableRel r]
    (key : α → κ) (val : α → γ) (df : List α) : List (κ × Nat) :=
  (List.insertionSort r ((df.map key).dedup)).map
    (fun k => (k, (((df.filter (fun a => decide (key a = k))).map val).dedup).length))

/-- `sort_values(ascending=True)` on a keyed series: sort the (key, value)
pairs by value, ascending.  The source uses the pandas default sort; only
the value ordering is specified, ties are broken arbitrarily. -/
def sortValuesAsc {κ β : Type} [LinearOrder β] (l : List (κ × β)) : List (κ × β) :=
  List.insertionSort (fun a b => a.2 ≤ b.2) l

/-- `sort_values(ascending=False)` on a keyed series. -/
def sortValuesDesc {κ β : Type} [LinearOrder β] (l : List (κ × β)) : List (κ × β) :=
  List.insertionSort (fun a b => b.2 ≤ a.2) l

/-- `.tail(10)`: the last 10 entries (all of them when fewer). -/
def tail10 {γ : Type} (l : List γ) : List γ := l.drop (l.length - 10)

instance {κ β : Type} [LinearOrder β] :
    IsTotal (κ × β) (fun a b => a.2 ≤ b.2) :=
  ⟨fun a b => le_total a.2 b.2⟩

instance {κ β : Type} [LinearOrder β] :
    IsTrans (κ × β) (fun a b => a.2 ≤ b.2) :=
  ⟨fun _ _ _ hab hbc => le_trans hab hbc⟩

instance {κ β : Type} [LinearOrder β] :
    IsTotal (κ × β) (fun a b => b.2 ≤ a.2) :=
  ⟨fun a b => le_total b.2 a.2⟩

instance {κ β : Type} [LinearOrder β] :
    IsTrans (κ × β) (fun a b => b.2 ≤ a.2) :=
  ⟨fun _ _ _ hab hbc => le_trans hbc hab⟩

/-- Lexicographic order on (month, country) group keys, the order pandas
uses for a two-level `groupby`. -/
def monthCountryLe (a b : Month × String) : Prop :=
  Month.lt a.1 b.1 ∨ (a.1 = b.1 ∧ strLe a.2 b.2)

instance : DecidableRel monthCountryLe := fun a b => by
  unfold monthCountryLe; infer_instance

/-- Order on optional customer identifiers (missing sorts first); only
its existence matters here, no claim depends on the customer key order. -/
def optStrLe : Option String → Option String → Prop
  | none, _ => True
  | some _, none => False
  | some x, some y => strLe x y

instance : DecidableRel optStrLe := fun a b => by
  cases a <;> cases b <;> unfold optStrLe <;> infer_instance

/-- `monthly_sales` (dashboard.py line 127): group the filtered rows by
calendar month, sum TotalPrice per month; pandas returns the months in
ascending order. -/
def monthly_sales (df : List SalesRecord) : List (Month × ℚ) :=
  groupbySum Month.le monthOf (fun r => r.totalPrice) df

/-- `monthly_country_sales` before the top-10 restriction (dashboard.py
lines 141 to 143): group by (month, country), sum TotalPrice. -/
def monthly_country_sales (df : List SalesRecord) : List ((Month × String) × ℚ) :=
  groupbySum monthCountryLe (fun r => (monthOf r, r.country)) (fun r => r.totalPrice) df

/-- `groupby("Country")["TotalPrice"].sum()`, shared by the top-10
country computations. -/
def country_sales (df : List SalesRecord) : List (String × ℚ) :=
  groupbySum strLe (fun r => r.country) (fun r => r.totalPrice) df

/-- `top_countries` with its aggregate values (dashboard.py lines 145 to
146): country sales sorted descending, first 10 entries kept. -/
def top_countries_pairs (df : List SalesRecord) : List (String × ℚ) :=
  (sortValuesDesc (country_sales df)).take 10

/-- `top_countries` (dashboard.py line 146, the `.head(10).index`): the
keys of `top_countries_pairs`. -/
def top_countries (df : List SalesRecord) : List String :=
  (top_countries_pairs df).map Prod.fst

/-- The country monthly trend as rendered (dashboard.py line 147): the
(month, country) aggregation restricted to the top-10 countries. -/
def monthly_country_sales_top (df : List SalesRecord) : List ((Month × String) × ℚ) :=
  (monthly_country_sales df).filter (fun p => decide (p.1.2 ∈ top_countries df))

/-- `hourly_sales` (dashboard.py lines 161 to 162): group by the
hour-of-day column derived from InvoiceDate, sum TotalPrice. -/
def hourly_sales (df : List SalesRecord) : List (Nat × ℚ) :=
  groupbySum (fun a b => a ≤ b) (fun r => r.invoiceDate.hour) (fun r => r.totalPrice) df

/-- `top_products_data` (dashboard.py lines 179 to 182): group by
Description, sum Quantity, sort ascending by the sum, keep the last 10. -/
def top_products_data (df : List SalesRecord) : List (String × Int) :=
  tail10 (sortValuesAsc
    (groupbySum strLe (fun r => r.description) (fun r => r.quantity) df))

/-- `top_countries_data` (dashboard.py lines 194 to 197): group by
Country, sum TotalPrice, sort ascending by the sum, keep the last 10. -/
def top_countries_data (df : List SalesRecord) : List (String × ℚ) :=
  tail10 (sortValuesAsc (country_sales df))

/-- `customer_orders` (dashboard.py line 213): per customer, the number
of distinct invoice numbers. -/
def customer_orders (df : List SalesRecord) : List (Option String × Nat) :=
  groupbyNunique optStrLe (fun r => r.customerId) (fun r => r.invoiceNo) df

/-- The mean of a list of rationals (`0` on the empty list, where the sum
is `0` and the division by length `0` yields `0` in `ℚ`). -/
def listMean (xs : List ℚ) : ℚ := xs.sum / (xs.length : ℚ)

/-- Sum of squared deviations from the mean, the quantity pandas calls
`ssqdm` inside its correlation kernel. -/
def ssdm (xs : List ℚ) : ℚ := (xs.map (fun x => (x - listMean xs) ^ 2)).sum

/-- The three numeric columns selected on dashboard.py line 227:
Quantity, UnitPrice, TotalPrice. -/
def numericCol (i : Fin 3) : SalesRecord → ℚ :=
  if i.val = 0 then fun r => (r.quantity : ℚ)
  else if i.val = 1 then fun r => r.unitPrice
  else fun r => r.totalPrice

/-- Whether entry (i, j) of `corr_matrix` (dashboard.py line 227) is a
number rather than NaN.  The pandas correlation kernel writes NaN when
the observation count is below `min_periods` (default 1) or when the
divisor `sqrt(ssqdm_x * ssqdm_y)` is zero; over `ℚ` the square root of
the nonnegative product is zero exactly when the product is. -/
def corrEntryDefined (df : List SalesRecord) (i j : Fin 3) : Bool :=
  decide (1 ≤ df.length) &&
    decide (ssdm (df.map (numericCol i)) * ssdm (df.map (numericCol j)) ≠ 0)

/-- Diagonal entry (i, i) of `corr_matrix`: the pandas kernel computes
`ssqdm_i / sqrt(ssqdm_i * ssqdm_i)`; since `ssqdm_i` is a sum of squares,
the divisor equals `ssqdm_i` itself, and the entry is NaN (`none`) when
that divisor is zero or the frame is empty. -/
def corrDiag (df : List SalesRecord) (i : Fin 3) : Option ℚ :=
  let s := ssdm (df.map (numericCol i))
  if 1 ≤ df.length ∧ s ≠ 0 then some (s / s) else none

/-- Zero-padded two-digit month, as in the string form of a pandas
monthly period. -/
def pad2 (n : Nat) : String := if n < 10 then "0" ++ toString n else toString n

/-- String form of a monthly period, "YYYY-MM". -/
def Month.str (m : Month) : String := toString m.year ++ "-" ++ pad2 m.month

/-- The CSV download (dashboard.py lines 136 to 137):
`monthly_sales.to_frame(name="Sales").to_csv(index=True)`.  The index of
`monthly_sales` is the grouping series `filtered_df["InvoiceDate"].dt.to_period("M")`,
whose pandas name is "InvoiceDate"; `to_frame` names the lone data column
"Sales"; `to_csv(index=True)` writes the index name and the column name
as the header row.  We model the file as its header pair plus one
(month string, value) row per month. -/
def monthly_sales_csv (df : List SalesRecord) : (String × String) × List (String × ℚ) :=
  (("InvoiceDate", "Sales"), (monthly_sales df).map (fun p => (Month.str p.1, p.2)))

/-- The script state relevant to mutation claims: the base table `df`
built by `load_data`, the filtered copy, and the Hour column that line
161 later assigns onto the filtered copy (absent before that line). -/
structure Dashboard where
  df : List SalesRecord
  filtered : List SalesRecord
  hourCol : Option (List Nat)

/-- The state after load and filter: `filtered_df = df[mask].copy()`
(line 92) makes the filtered table an independent copy; no Hour column
exists yet. -/
def initDashboard (raw : List RawRecord) (startD endD : Date) (sel : String) :
    Dashboard :=
  let base := load_data raw
  { df := base, filtered := filtered_df base startD endD sel, hourCol := none }

/-- `filtered_df["Hour"] = filtered_df["InvoiceDate"].dt.hour` (line
161): column assignment on the filtered copy; because line 92 took a
`.copy()`, the write lands on the copy alone and the base table is
untouched. -/
def addHourColumn (d : Dashboard) : Dashboard :=
  { d with hourCol := some (d.filtered.map (fun r => r.invoiceDate.hour)) }

/-! ### Helper lemmas -/

theorem mem_of_mem_drop_duplicates {γ : Type} [DecidableEq γ] :
    ∀ (seen l : List γ) (x : γ), x ∈ drop_duplicates seen l → x ∈ l
  | _, [], _, hx => by simp [drop_duplicates] at hx
  | seen, r :: rs, x, hx => by
    unfold drop_duplicates at hx
    by_cases hr : r ∈ seen
    · rw [if_pos hr] at hx
      exact List.mem_cons_of_mem _ (mem_of_mem_drop_duplicates seen rs x hx)
    · rw [if_neg hr] at hx
      rcases List.mem_cons.mp hx with h | h
      · exact h ▸ List.mem_cons_self r rs
      · exact List.mem_cons_of_mem _ (mem_of_mem_drop_duplicates (r :: seen) rs x h)

theorem not_mem_seen_of_mem_drop_duplicates {γ : Type} [DecidableEq γ] :
    ∀ (seen l : List γ) (x : γ), x ∈ drop_duplicates seen l → x ∉ seen
  | _, [], _, hx => by simp [drop_duplicates] at hx
  | seen, r :: rs, x, hx => by
    unfold drop_duplicates at hx
    by_cases hr : r ∈ seen
    · rw [if_pos hr] at hx
      exact not_mem_seen_of_mem_drop_duplicates seen rs x hx
    · rw [if_neg hr] at hx
      rcases List.mem_cons.mp hx with h | h
      · exact h ▸ hr
      · intro hxs
        exact not_mem_seen_of_mem_drop_duplicates (r :: seen) rs x h
          (List.mem_cons_of_mem _ hxs)

theorem nodup_drop_duplicates {γ : Type} [DecidableEq γ] :
    ∀ (seen l : List γ), (drop_duplicates seen l).Nodup
  | _, [] => by simp [drop_duplicates]
  | seen, r :: rs => by
    unfold drop_duplicates
    by_cases hr : r ∈ seen
    · rw [if_pos hr]
      exact nodup_drop_duplicates seen rs
    · rw [if_neg hr]
      refine List.nodup_cons.mpr ⟨?_, nodup_drop_duplicates (r :: seen) rs⟩
      intro hmem
      exact not_mem_seen_of_mem_drop_duplicates (r :: seen) rs r hmem
        (List.mem_cons_self r seen)

/-! ### Example data -/

/-- First example row of the spec (section 8): invoice 1, total 10,
country FR, dated 2021-01-05. -/
def recA : SalesRecord :=
  { invoiceNo := "1", description := "prodA", quantity := 1
    invoiceDate := ⟨2021, 1, 5, 10, 0⟩, unitPrice := 10
    customerId := some "c1", country := "FR", totalPrice := 10 }

/-- Second example row of the spec (section 8): invoice 2, total 20,
country FR, dated 2021-02-10. -/
def recB : SalesRecord :=
  { invoiceNo := "2", description := "prodB", quantity := 1
    invoiceDate := ⟨2021, 2, 10, 12, 30⟩, unitPrice := 20
    customerId := some "c2", country := "FR", totalPrice := 20 }

/-- The two-row example collection of the spec. -/
def exRows : List SalesRecord := [recA, recB]

/-- A raw input producing `recA` and `recB` through the loader. -/
def exRaw : List RawRecord :=
  [{ invoiceNo := "1", description := "prodA", quantity := 1
     invoiceDate := ⟨2021, 1, 5, 10, 0⟩, unitPrice := 10
     customerId := some "c1", country := "FR" },
   { invoiceNo := "2", description := "prodB", quantity := 1
     invoiceDate := ⟨2021, 2, 10, 12, 30⟩, unitPrice := 20
     customerId := some "c2", country := "FR" }]

/-! ### Claims -/

/-- C1: every row of the collection returned by `load_data` has a present
customerId, a positive quantity and totalPrice equal to quantity times
unitPrice, and no two rows of the collection are fully identical. -/
theorem load_data_invariants (raw : List RawRecord) :
    (∀ rec ∈ load_data raw,
        rec.customerId.isSome = true ∧ 0 < rec.quantity ∧
          rec.totalPrice = (rec.quantity : ℚ) * rec.unitPrice) ∧
      (load_data raw).Nodup := by
  constructor
  · intro rec hrec
    simp only [load_data] at hrec
    have h3 := mem_of_mem_drop_duplicates _ _ _ hrec
    simp only [List.mem_map, List.mem_filter] at h3
    obtain ⟨r, ⟨⟨_, hcust⟩, hq⟩, rfl⟩ := h3
    exact ⟨hcust, of_decide_eq_true hq, rfl⟩
  · exact nodup_drop_duplicates _ _

/-- Witness for C1 at a concrete input: the loader output of `exRaw`
contains `recA`, and the invariants hold of it. -/
theorem load_data_invariants_witness :
    recA.customerId.isSome = true ∧ 0 < recA.quantity ∧
      recA.totalPrice = (recA.quantity : ℚ) * recA.unitPrice :=
  (load_data_invariants exRaw).1 recA (by decide)

/-- C2: the filter returns exactly the subsequence (in input order) of
rows whose truncated date lies in [start, end] and, when the selection is
not "All", whose country equals the selection; with selection "All" no
country restriction applies. -/
theorem filtered_df_eq_spec (df : List SalesRecord) (startD endD : Date)
    (sel : String) :
    filtered_df df startD endD sel
        = df.filter (fun r => decide (specFilterKeep startD endD sel r)) ∧
      (filtered_df df startD endD sel).Sublist df := by
  refine ⟨List.filter_congr ?_, List.filter_sublist df⟩
  intro r _
  by_cases h1 : Date.le startD (dateOf r) <;>
    by_cases h2 : Date.le (dateOf r) endD <;>
      by_cases hc : sel = "All" <;>
        by_cases h3 : r.country = sel <;>
          simp [keepRow, specFilterKeep, h1, h2, hc, h3]

/-- C3: `avg_order_value` is 0 when the distinct-invoice count is 0, and
otherwise is exactly total sales divided by total orders; whenever the
division is performed its divisor is nonzero. -/
theorem avg_order_value_spec (df : List SalesRecord) :
    (total_orders df = 0 → avg_order_value df = 0) ∧
      (total_orders df ≠ 0 →
        (total_orders df : ℚ) ≠ 0 ∧
          avg_order_value df = total_sales df / (total_orders df : ℚ)) := by
  constructor
  · intro h
    simp [avg_order_value, h]
  · intro h
    refine ⟨Nat.cast_ne_zero.mpr h, ?_⟩
    simp [avg_order_value, Nat.pos_of_ne_zero h]

/-- Witness for C3 at the two-row example collection, which has two
distinct invoices. -/
theorem avg_order_value_spec_witness :
    (total_orders exRows : ℚ) ≠ 0 ∧
      avg_order_value exRows = total_sales exRows / (total_orders exRows : ℚ) :=
  (avg_order_value_spec exRows).2 (by decide)

/-- C5: filtering is idempotent — filtering an already-filtered
collection by the same interval and country selection returns it
unchanged. -/
theorem filtered_df_idempotent (df : List SalesRecord) (startD endD : Date)
    (sel : String) :
    filtered_df (filtered_df df startD endD sel) startD endD sel
      = filtered_df df startD endD sel := by
  unfold filtered_df
  rw [List.filter_filter]
  exact List.filter_congr (fun a _ => by rw [Bool.and_self])

theorem groupbySum_key_mem {α κ β : Type} [DecidableEq κ] [AddCommMonoid β]
    (r : κ → κ → Prop) [DecidableRel r] (key : α → κ) (val : α → β)
    (df : List α) {p : κ × β} (hp : p ∈ groupbySum r key val df) :
    p.1 ∈ df.map key := by
  unfold groupbySum at hp
  obtain ⟨k, hk, rfl⟩ := List.mem_map.mp hp
  exact List.mem_dedup.mp ((List.perm_insertionSort r _).mem_iff.mp hk)

theorem tail10_sortValuesAsc_props {κ β : Type} [LinearOrder β]
    (l : List (κ × β)) :
    (tail10 (sortValuesAsc l)).length ≤ 10 ∧
      List.Sorted (fun a b => a.2 ≤ b.2) (tail10 (sortValuesAsc l)) ∧
      ∀ p ∈ tail10 (sortValuesAsc l), p ∈ l := by
  refine ⟨?_, ?_, ?_⟩
  · simp only [tail10, List.length_drop]
    omega
  · exact List.Pairwise.sublist (List.drop_sublist _ _)
      (List.sorted_insertionSort _ _)
  · intro p hp
    have h1 : p ∈ sortValuesAsc l := List.Sublist.mem hp (List.drop_sublist _ _)
    exact (List.perm_insertionSort _ _).mem_iff.mp h1

theorem take10_sortValuesDesc_props {κ β : Type} [LinearOrder β]
    (l : List (κ × β)) :
    ((sortValuesDesc l).take 10).length ≤ 10 ∧
      List.Sorted (fun a b => b.2 ≤ a.2) ((sortValuesDesc l).take 10) ∧
      ∀ p ∈ (sortValuesDesc l).take 10, p ∈ l := by
  refine ⟨?_, ?_, ?_⟩
  · simp only [List.length_take]
    omega
  · exact List.Pairwise.sublist (List.take_sublist _ _)
      (List.sorted_insertionSort _ _)
  · intro p hp
    have h1 : p ∈ sortValuesDesc l := List.Sublist.mem hp (List.take_sublist _ _)
    exact (List.perm_insertionSort _ _).mem_iff.mp h1

/-- C4: each of the three top-10 selections returns at most 10 groups,
sorted by the aggregate value (ascending for the two tail-10 charts,
descending for the trend restriction), and every returned group key
occurs in the filtered collection. -/
theorem top10_aggregations (df : List SalesRecord) :
    ((top_products_data df).length ≤ 10 ∧
      List.Sorted (fun a b => a.2 ≤ b.2) (top_products_data df) ∧
      ∀ p ∈ top_products_data df, p.1 ∈ df.map (fun r => r.description)) ∧
    ((top_countries_data df).length ≤ 10 ∧
      List.Sorted (fun a b => a.2 ≤ b.2) (top_countries_data df) ∧
      ∀ p ∈ top_countries_data df, p.1 ∈ df.map (fun r => r.country)) ∧
    ((top_countries df).length ≤ 10 ∧
      List.Sorted (fun a b => b.2 ≤ a.2) (top_countries_pairs df) ∧
      ∀ k ∈ top_countries df, k ∈ df.map (fun r => r.country)) := by
  obtain ⟨hl1, hs1, hm1⟩ := tail10_sortValuesAsc_props
    (groupbySum strLe (fun r : SalesRecord => r.description)
      (fun r => r.quantity) df)
  obtain ⟨hl2, hs2, hm2⟩ := tail10_sortValuesAsc_props (country_sales df)
  obtain ⟨hl3, hs3, hm3⟩ := take10_sortValuesDesc_props (country_sales df)
  refine ⟨⟨hl1, hs1, ?_⟩, ⟨hl2, hs2, ?_⟩, ?_, hs3, ?_⟩
  · intro p hp
    exact groupbySum_key_mem _ _ _ df (hm1 p hp)
  · intro p hp
    exact groupbySum_key_mem _ _ _ df (hm2 p hp)
  · unfold top_countries
    rw [List.length_map]
    exact hl3
  · intro k hk
    obtain ⟨p, hp, rfl⟩ := List.mem_map.mp hk
    exact groupbySum_key_mem _ _ _ df (hm3 p hp)

/-- Witness for C4 at the two-row example collection: the top-products
chart contains the group prodA with summed quantity 1, and prodA occurs
in the collection. -/
theorem top10_aggregations_witness :
    ("prodA", (1 : Int)).1 ∈ exRows.map (fun r => r.description) :=
  (top10_aggregations exRows).1.2.2 ("prodA", 1) (by decide)

theorem Date.not_between {e s d : Date} (h : Date.lt e s)
    (h1 : Date.le s d) (h2 : Date.le d e) : False := by
  unfold Date.lt at h
  unfold Date.le at h1 h2
  omega

/-- C6: when start > end the filter yields the empty collection without
error, and the seven chart aggregations of the empty filtered collection
are all empty: the six grouped aggregations are empty lists and no entry
of the correlation matrix holds a value (pandas renders every entry
NaN). -/
theorem empty_range_empty_results (df : List SalesRecord)
    (startD endD : Date) (sel : String) (h : Date.lt endD startD) :
    filtered_df df startD endD sel = [] ∧
      monthly_sales (filtered_df df startD endD sel) = [] ∧
      monthly_country_sales_top (filtered_df df startD endD sel) = [] ∧
      hourly_sales (filtered_df df startD endD sel) = [] ∧
      top_products_data (filtered_df df startD endD sel) = [] ∧
      top_countries_data (filtered_df df startD endD sel) = [] ∧
      customer_orders (filtered_df df startD endD sel) = [] ∧
      ∀ i j : Fin 3, corrEntryDefined (filtered_df df startD endD sel) i j = false := by
  have hrow : ∀ r : SalesRecord, keepRow startD endD sel r = false := by
    intro r
    unfold keepRow
    by_cases h1 : Date.le startD (dateOf r)
    · by_cases h2 : Date.le (dateOf r) endD
      · exact (Date.not_between h h1 h2).elim
      · simp [h1, h2]
    · simp [h1]
  have hf : filtered_df df startD endD sel = [] := by
    unfold filtered_df
    exact List.filter_eq_nil_iff.mpr (fun a _ => by simp [hrow a])
  rw [hf]
  exact ⟨rfl, rfl, rfl, rfl, rfl, rfl, rfl, fun i j => rfl⟩

/-- Witness for C6 at a concrete reversed interval over the example
collection. -/
theorem empty_range_empty_results_witness :
    filtered_df exRows ⟨2021, 3, 1⟩ ⟨2021, 1, 1⟩ "All" = [] :=
  (empty_range_empty_results exRows ⟨2021, 3, 1⟩ ⟨2021, 1, 1⟩ "All" (by decide)).1

theorem monthly_sales_keys (df : List SalesRecord) :
    (monthly_sales df).map Prod.fst
      = List.insertionSort Month.le ((df.map monthOf).dedup) := by
  unfold monthly_sales groupbySum
  rw [List.map_map]
  exact List.map_id' _

/-- C7: the monthly trend groups rows by the calendar month of the
invoice date, sums totalPrice per month, and returns the months in
ascending order; on the spec's two-row example it yields
2021-01 ↦ 10 and 2021-02 ↦ 20, with totalSales 30, totalOrders 2 and
avgOrderValue 15. -/
theorem monthly_trend_correct :
    (∀ df : List SalesRecord,
        List.Sorted Month.le ((monthly_sales df).map Prod.fst) ∧
          ((monthly_sales df).map Prod.fst).Perm ((df.map monthOf).dedup) ∧
          ∀ p ∈ monthly_sales df,
            p.2 = ((df.filter (fun r => decide (monthOf r = p.1))).map
              (fun r => r.totalPrice)).sum) ∧
      (monthly_sales exRows = [(⟨2021, 1⟩, 10), (⟨2021, 2⟩, 20)] ∧
        total_sales exRows = 30 ∧ total_orders exRows = 2 ∧
        avg_order_value exRows = 15) := by
  constructor
  · intro df
    refine ⟨?_, ?_, ?_⟩
    · rw [monthly_sales_keys]
      exact List.sorted_insertionSort Month.le _
    · rw [monthly_sales_keys]
      exact List.perm_insertionSort Month.le _
    · intro p hp
      unfold monthly_sales groupbySum at hp
      obtain ⟨k, _, rfl⟩ := List.mem_map.mp hp
      rfl
  · exact ⟨by decide, by decide, by decide, by decide⟩

/-- Witness for C7: the value stored for month 2021-01 in the example is
the sum of totalPrice over the example rows of that month. -/
theorem monthly_trend_correct_witness :
    ((⟨2021, 1⟩, (10 : ℚ)) : Month × ℚ).2
      = ((exRows.filter (fun r =>
            decide (monthOf r = ((⟨2021, 1⟩, (10 : ℚ)) : Month × ℚ).1))).map
          (fun r => r.totalPrice)).sum :=
  (monthly_trend_correct.1 exRows).2.2 (⟨2021, 1⟩, 10) (by decide)

/-- C8 as stated is false: the header of the exported delimited file
names its first column InvoiceDate (the pandas name of the grouping
index), not Month. -/
theorem monthly_sales_csv_header_cex :
    (monthly_sales_csv []).1 ≠ ("Month", "Sales") := by decide

/-- C8 amended: the export is the monthly-sales aggregation re-encoded
as a delimited text file whose columns are named InvoiceDate and Sales,
one row per month. -/
theorem monthly_sales_csv_amended (df : List SalesRecord) :
    (monthly_sales_csv df).1 = ("InvoiceDate", "Sales") ∧
      (monthly_sales_csv df).2
        = (monthly_sales df).map (fun p => (Month.str p.1, p.2)) :=
  ⟨rfl, rfl⟩

/-- C9 amended: a diagonal entry of the correlation matrix equals 1
exactly when the column has nonzero squared deviation from its mean;
with zero variance (constant column, single row or empty frame) the
entry is NaN (`none`), not 1. -/
theorem corrDiag_eq_one (df : List SalesRecord) (i : Fin 3)
    (h : ssdm (df.map (numericCol i)) ≠ 0) : corrDiag df i = some 1 := by
  have hlen : 1 ≤ df.length := by
    cases df with
    | nil => exact absurd rfl h
    | cons a l => simp
  unfold corrDiag
  rw [if_pos ⟨hlen, h⟩, div_self h]

/-- Witness for C9: on the two-row example the UnitPrice column has
nonzero variance and its diagonal correlation entry is exactly 1. -/
theorem corrDiag_eq_one_witness : corrDiag exRows 1 = some 1 :=
  corrDiag_eq_one exRows 1 (by decide)

/-- C9 as stated is false: loading a one-row table and filtering with a
covering interval gives a filtered collection whose Quantity column has
zero variance, so the diagonal correlation entry is NaN (`none`), not
exactly 1.0. -/
theorem corrDiag_cex :
    corrDiag
      (filtered_df (load_data
        [{ invoiceNo := "9", description := "p", quantity := 2
           invoiceDate := ⟨2021, 1, 5, 10, 0⟩, unitPrice := 3
           customerId := some "c9", country := "FR" }])
        ⟨2021, 1, 1⟩ ⟨2021, 12, 31⟩ "All") 0 ≠ some 1 := by
  decide

/-- C10: the base table is never mutated.  The hour-of-day column
assignment of dashboard.py line 161 lands on the filtered copy alone:
it leaves both components of any state's tables unchanged, and after
load, filter and the assignment the base table is still exactly
`load_data` of the input. -/
theorem base_table_immutable :
    (∀ d : Dashboard,
        (addHourColumn d).df = d.df ∧ (addHourColumn d).filtered = d.filtered) ∧
      ∀ (raw : List RawRecord) (startD endD : Date) (sel : String),
        (initDashboard raw startD endD sel).df = load_data raw ∧
          (addHourColumn (initDashboard raw startD endD sel)).df = load_data raw ∧
          (addHourColumn (initDashboard raw startD endD sel)).filtered
            = filtered_df (load_data raw) startD endD sel ∧
          (addHourColumn (initDashboard raw startD endD sel)).hourCol
            = some ((filtered_df (load_data raw) startD endD sel).map
                (fun r => r.invoiceDate.hour)) :=
  ⟨fun _ => ⟨rfl, rfl⟩, fun _ _ _ _ => ⟨rfl, rfl, rfl, rfl⟩⟩
